import Mathlib

/-!
Shallow embedding of linaro-swg/aes-perf.

The trusted-application command handlers (`cmd_prepare_key`, `cmd_process`
from src/ta/ta_aes_perf.c) are embedded as pure functions over an explicit
session state (the static variable `crypto_op`) together with an
environment recording the results of the GlobalPlatform primitives they
call.  The host-side pieces (src/host/aes-perf.c) are embedded as well:
the Welford statistics engine (`update_stats`, `stddev`), the
shared-memory lifecycle of a benchmark run (`alloc_shm` / `free_shm` /
`errx`), and the monotonic timestamp subtraction (`timespec_diff_ns`).
Doubles are modelled as exact rationals (reals for the final square
root); the uint64 accumulator of `timespec_diff_ns` is modelled as a
natural number reduced modulo 2^64 exactly where the C code converts or
overflows.
-/

/-! ### GlobalPlatform TEE constants

Numeric values are taken from the GP TEE Internal Core API headers, which
the repository's source includes and compares against verbatim. -/

def TEE_SUCCESS : Nat := 0

def TEE_ERROR_BAD_PARAMETERS : Nat := 0xFFFF0006

def TEE_ERROR_OUT_OF_MEMORY : Nat := 0xFFFF000C

def TEE_MODE_ENCRYPT : Nat := 0

def TEE_MODE_DECRYPT : Nat := 1

def TEE_ALG_AES_ECB_NOPAD : Nat := 0x10000010

def TEE_PARAM_TYPE_NONE : Nat := 0

def TEE_PARAM_TYPE_VALUE_INPUT : Nat := 1

def TEE_PARAM_TYPE_MEMREF_INPUT : Nat := 5

def TEE_PARAM_TYPE_MEMREF_OUTPUT : Nat := 6

def TEE_PARAM_TYPE_MEMREF_INOUT : Nat := 7

/-- The TEE_PARAM_TYPES packing macro: t0 | (t1 << 4) | (t2 << 8) | (t3 << 12). -/
def TEE_PARAM_TYPES (t0 t1 t2 t3 : Nat) : Nat :=
  t0 + t1 * 16 + t2 * 256 + t3 * 4096

/-! ### The trusted application's session state -/

/-- A cipher operation as allocated by `TEE_AllocateOperation` in
`cmd_prepare_key` (src/ta/ta_aes_perf.c:149): the algorithm, the mode
(direction), the maximum key size in bits passed at allocation, and
whether `TEE_SetOperationKey` has succeeded on it (before that the
operation is half-constructed: allocated but keyless). -/
structure OpCtx where
  algorithm : Nat
  mode : Nat
  maxKeySize : Nat
  hasKey : Bool
deriving DecidableEq

/-- The value of the static variable `crypto_op` (src/ta/ta_aes_perf.c:43):
`null` (its initial value), `dangling` (it still holds a pointer that
`TEE_FreeOperation` has already freed — the C code never resets the
variable after freeing), or `live op` (a handle to an allocated
operation). -/
inductive OpSlot where
  | null : OpSlot
  | dangling : OpSlot
  | live : OpCtx → OpSlot
deriving DecidableEq

/-- Parameter shape `cmd_prepare_key` checks for
(src/ta/ta_aes_perf.c:137-140): one VALUE_INPUT, three NONE. -/
def expPrepareKeyParamTypes : Nat :=
  TEE_PARAM_TYPES TEE_PARAM_TYPE_VALUE_INPUT TEE_PARAM_TYPE_NONE
    TEE_PARAM_TYPE_NONE TEE_PARAM_TYPE_NONE

/-- Parameter shape `cmd_process` checks for
(src/ta/ta_aes_perf.c:105-108): MEMREF_INPUT, MEMREF_OUTPUT, NONE, NONE. -/
def expProcessParamTypes : Nat :=
  TEE_PARAM_TYPES TEE_PARAM_TYPE_MEMREF_INPUT TEE_PARAM_TYPE_MEMREF_OUTPUT
    TEE_PARAM_TYPE_NONE TEE_PARAM_TYPE_NONE

/-- The parameter shape the host's `prepare_key` sends
(src/host/aes-perf.c:291-295): TEEC_VALUE_INPUT, TEEC_VALUE_INPUT,
TEEC_NONE, TEEC_NONE.  Per the GP client/internal API correspondence a
client VALUE_INPUT parameter is delivered to the TA as
TEE_PARAM_TYPE_VALUE_INPUT and TEEC_NONE as TEE_PARAM_TYPE_NONE, so this
is the shape `cmd_prepare_key` compares against its expected one. -/
def hostPrepareKeyParamTypes : Nat :=
  TEE_PARAM_TYPES TEE_PARAM_TYPE_VALUE_INPUT TEE_PARAM_TYPE_VALUE_INPUT
    TEE_PARAM_TYPE_NONE TEE_PARAM_TYPE_NONE

/-- The parameter shape the host's `run_test` sends
(src/host/aes-perf.c:321-323): TEEC_MEMREF_PARTIAL_INOUT,
TEEC_MEMREF_PARTIAL_INOUT, TEEC_VALUE_INPUT, TEEC_NONE.  Per the GP
client/internal API correspondence a client partial-INOUT memref is
delivered to the TA as TEE_PARAM_TYPE_MEMREF_INOUT. -/
def hostProcessParamTypes : Nat :=
  TEE_PARAM_TYPES TEE_PARAM_TYPE_MEMREF_INOUT TEE_PARAM_TYPE_MEMREF_INOUT
    TEE_PARAM_TYPE_VALUE_INPUT TEE_PARAM_TYPE_NONE

/-! ### cmd_prepare_key -/

/-- Results returned by the four GP primitives `cmd_prepare_key` calls, in
call order: `TEE_AllocateOperation`, `TEE_AllocateTransientObject`,
`TEE_PopulateTransientObject`, `TEE_SetOperationKey`. -/
structure PrepEnv where
  allocOpRes : Nat
  allocKeyRes : Nat
  populateRes : Nat
  setKeyRes : Nat
deriving DecidableEq

/-- Environment in which every GP primitive succeeds. -/
def successEnv : PrepEnv := ⟨TEE_SUCCESS, TEE_SUCCESS, TEE_SUCCESS, TEE_SUCCESS⟩

/-- Outcome of `cmd_prepare_key`: the returned TEE_Result, the resulting
value of `crypto_op`, and whether the transient key object `hkey` was
allocated but never freed (leaked). -/
structure PrepOut where
  res : Nat
  slot : OpSlot
  hkeyLeaked : Bool
deriving DecidableEq

/-- `cmd_prepare_key` (src/ta/ta_aes_perf.c:126-169), embedded over the
session state `slot` (= `crypto_op`) and the primitive results `env`.
`decryptFlag` is the truth value of `params[0].value.a`.  The source: the
parameter-shape check comes first and returns TEE_ERROR_BAD_PARAMETERS
touching nothing; then any existing `crypto_op` is freed (the variable
keeps the stale pointer — `dangling`); `TEE_AllocateOperation` always
requests TEE_ALG_AES_ECB_NOPAD with max key size 128; each subsequent
failing CHECK returns immediately, leaving the freshly allocated keyless
operation in `crypto_op`, and after `TEE_AllocateTransientObject`
succeeded also leaking `hkey` on the populate/set-key failure paths. -/
def cmd_prepare_key (param_types : Nat) (decryptFlag : Bool)
    (env : PrepEnv) (slot : OpSlot) : PrepOut :=
  if param_types ≠ expPrepareKeyParamTypes then
    ⟨TEE_ERROR_BAD_PARAMETERS, slot, false⟩
  else
    let mode := if decryptFlag then TEE_MODE_DECRYPT else TEE_MODE_ENCRYPT
    let freed : OpSlot := match slot with
      | OpSlot.null => OpSlot.null
      | _ => OpSlot.dangling
    if env.allocOpRes ≠ TEE_SUCCESS then
      ⟨env.allocOpRes, freed, false⟩
    else
      let fresh : OpCtx := ⟨TEE_ALG_AES_ECB_NOPAD, mode, 128, false⟩
      if env.allocKeyRes ≠ TEE_SUCCESS then
        ⟨env.allocKeyRes, OpSlot.live fresh, false⟩
      else if env.populateRes ≠ TEE_SUCCESS then
        ⟨env.populateRes, OpSlot.live fresh, true⟩
      else if env.setKeyRes ≠ TEE_SUCCESS then
        ⟨env.setKeyRes, OpSlot.live fresh, true⟩
      else
        ⟨TEE_SUCCESS, OpSlot.live ⟨TEE_ALG_AES_ECB_NOPAD, mode, 128, true⟩, false⟩

/-! ### cmd_process -/

/-- Outcome of `cmd_process`: either a TA panic (abnormal termination: the
GP API panics when `TEE_CipherInit` is handed an invalid or keyless
operation handle) or a returned TEE_Result together with the number of
`TEE_CipherDoFinal` invocations (cipher steps) that were performed. -/
inductive ProcOutcome where
  | panic : ProcOutcome
  | ret : Nat → Nat → ProcOutcome
deriving DecidableEq

/-- `cmd_process` (src/ta/ta_aes_perf.c:99-124), embedded over the session
state and the result `doFinalRes` the cipher primitive would report.  The
source: the parameter-shape check returns TEE_ERROR_BAD_PARAMETERS on
mismatch; then `TEE_CipherInit(crypto_op, NULL, 0)` is called with no
NULL check — per the GP API this panics when `crypto_op` is NULL, a freed
(stale) handle, or an operation with no key set; otherwise a single
`TEE_CipherDoFinal` runs and its result is returned.  No parameter of the
accepted shape carries a loop count and no loop exists in the handler. -/
def cmd_process (param_types : Nat) (doFinalRes : Nat) (slot : OpSlot) :
    ProcOutcome :=
  if param_types ≠ expProcessParamTypes then
    ProcOutcome.ret TEE_ERROR_BAD_PARAMETERS 0
  else
    match slot with
    | OpSlot.null => ProcOutcome.panic
    | OpSlot.dangling => ProcOutcome.panic
    | OpSlot.live op =>
      if op.hasKey then
        if doFinalRes ≠ TEE_SUCCESS then ProcOutcome.ret doFinalRes 1
        else ProcOutcome.ret TEE_SUCCESS 1
      else ProcOutcome.panic

/-- A fully prepared operation: what a successful `cmd_prepare_key` with
the encrypt direction leaves in `crypto_op`. -/
def readyOp : OpCtx := ⟨TEE_ALG_AES_ECB_NOPAD, TEE_MODE_ENCRYPT, 128, true⟩

/-! ### Host statistics engine (src/host/aes-perf.c:116-150)

C doubles are modelled as exact rationals; the final square root of
`stddev` maps into the reals.  NAN is modelled as `Option.none`. -/

/-- `struct statistics` (src/host/aes-perf.c:116-123). -/
structure Statistics where
  n : Nat
  m : ℚ
  M2 : ℚ
  min : ℚ
  max : ℚ
  initialized : Bool
deriving DecidableEq

/-- The zero-initialised accumulator `struct statistics stats = {0, }`
(src/host/aes-perf.c:310). -/
def initStats : Statistics := ⟨0, 0, 0, 0, 0, false⟩

/-- `update_stats` (src/host/aes-perf.c:126-143), Welford's algorithm: the
count is incremented first, the mean update divides by the new count, and
the sum of squared deviations uses the updated mean. -/
def update_stats (s : Statistics) (x : ℚ) : Statistics :=
  let delta := x - s.m
  let n := s.n + 1
  let m := s.m + delta / (n : ℚ)
  let M2 := s.M2 + delta * (x - m)
  if s.initialized then
    ⟨n, m, M2, Min.min s.min x, Max.max s.max x, true⟩
  else
    ⟨n, m, M2, x, x, true⟩

/-- Feeding a sequence of duration samples one by one into a fresh
accumulator, as `run_test`'s loop does (src/host/aes-perf.c:338-343). -/
def feedStats (xs : List ℚ) : Statistics :=
  List.foldl update_stats initStats xs

/-- `stddev` (src/host/aes-perf.c:145-150): NAN (modelled `none`) when
n < 2, else sqrt(M2 / n) — divisor n, not n - 1. -/
noncomputable def stddev (s : Statistics) : Option ℝ :=
  if s.n < 2 then none else some (Real.sqrt ((s.M2 : ℝ) / (s.n : ℝ)))

/-- Invariant maintained by the accumulator once the first sample is in:
it is initialized, counts at least one sample, and its running mean lies
between its running minimum and maximum. -/
def StatsInv (s : Statistics) : Prop :=
  s.initialized = true ∧ 1 ≤ s.n ∧ s.min ≤ s.m ∧ s.m ≤ s.max

/-! ### Shared-memory lifecycle of one benchmark run
(src/host/aes-perf.c:198-219, 266-282, 307-348)

`run_test` calls `alloc_shm(size)`, which allocates `in_shm` and — only
when `in_place == 0` — `out_shm`; any allocation failure goes through
`check_res` to `errx`, which exits the process.  Each loop iteration's
failing `TEEC_InvokeCommand` likewise exits through `errx`.  Only on
normal completion does `free_shm` run, and it unconditionally calls
`TEEC_ReleaseSharedMemory` on both `in_shm` and `out_shm`. -/

/-- Failure scenario injected into one benchmark run: everything succeeds,
the `in_shm` allocation fails, the `out_shm` allocation fails (only
reachable when not in place), or some command invocation fails. -/
inductive RunFailure where
  | ok : RunFailure
  | allocInFails : RunFailure
  | allocOutFails : RunFailure
  | invokeFails : RunFailure
deriving DecidableEq

/-- Buffer accounting for one `run_test` run: which shared-memory buffers
were successfully allocated, how many times `TEEC_ReleaseSharedMemory`
was called on each, and whether the run died through `errx` (process
exit) instead of completing. -/
structure RunTrace where
  allocatedIn : Bool
  allocatedOut : Bool
  releasedIn : Nat
  releasedOut : Nat
  exited : Bool
deriving DecidableEq

/-- The buffer lifecycle of `run_test size nIter l`
(src/host/aes-perf.c:307-348) under failure scenario `fail`.
`allocOutFails` cannot occur when `inPlace` is set (the allocation is not
attempted) and `invokeFails` cannot occur when `nIter = 0` (no
invocation happens); in those cases the run completes normally. -/
def run_test_shm (inPlace : Bool) (nIter : Nat) (fail : RunFailure) :
    RunTrace :=
  match fail with
  | RunFailure.allocInFails => ⟨false, false, 0, 0, true⟩
  | RunFailure.allocOutFails =>
    if inPlace then ⟨true, false, 1, 1, false⟩
    else ⟨true, false, 0, 0, true⟩
  | RunFailure.invokeFails =>
    if nIter = 0 then ⟨true, !inPlace, 1, 1, false⟩
    else ⟨true, !inPlace, 0, 0, true⟩
  | RunFailure.ok => ⟨true, !inPlace, 1, 1, false⟩

/-! ### Monotonic timestamp subtraction (src/host/aes-perf.c:252-264) -/

/-- `struct timespec`: seconds and nanoseconds as mathematical integers
(`time_t` and `long` values). -/
structure Timespec where
  tv_sec : Int
  tv_nsec : Int
deriving DecidableEq

/-- Conversion of a signed C expression to `uint64_t`: reduction modulo
2^64 = 18446744073709551616 (this also models the two's-complement wrap
of an overflowing signed intermediate, which is what the additions into
`ns` observe). -/
def wrap64 (z : Int) : Nat := (z % 18446744073709551616).toNat

/-- `timespec_diff_ns` (src/host/aes-perf.c:252-264): a `uint64_t`
accumulator `ns` receives one or two signed summands depending on the
nanosecond borrow; each summand is converted to `uint64_t` and the
addition wraps modulo 2^64. -/
def timespec_diff_ns (start finish : Timespec) : Nat :=
  if finish.tv_nsec < start.tv_nsec then
    (wrap64 (1000000000 * (finish.tv_sec - start.tv_sec - 1)) +
      wrap64 (1000000000 - start.tv_nsec + finish.tv_nsec)) % 18446744073709551616
  else
    (wrap64 (1000000000 * (finish.tv_sec - start.tv_sec)) +
      wrap64 (finish.tv_nsec - start.tv_nsec)) % 18446744073709551616

/-! ### Claims about the command protocol -/

/-- Claim C1: the parameter shapes the host actually sends are rejected by
the service.  Even with every GP primitive succeeding and (for Process) a
fully prepared key bound, `cmd_prepare_key` refuses the host's two-value
PrepareKey shape and `cmd_process` refuses the host's
(INOUT, INOUT, VALUE, NONE) Process shape, both with
TEE_ERROR_BAD_PARAMETERS — so the PrepareKey→Process→Process sequence the
caller issues cannot succeed, contrary to the claim. -/
theorem claim_C1_host_shapes_rejected :
    cmd_prepare_key hostPrepareKeyParamTypes false successEnv OpSlot.null =
      ⟨TEE_ERROR_BAD_PARAMETERS, OpSlot.null, false⟩ ∧
    cmd_process hostProcessParamTypes TEE_SUCCESS (OpSlot.live readyOp) =
      ProcOutcome.ret TEE_ERROR_BAD_PARAMETERS 0 := by
  constructor <;> rfl

/-- Claim C2: an accepted Process command performs exactly one
`TEE_CipherDoFinal` cipher step — the handler contains no inner loop and
its accepted parameter shape has TEE_PARAM_TYPE_NONE in the value slot,
so no inner_loop_count even reaches it; the host's shape, which does
carry the loop count, is rejected outright. -/
theorem claim_C2_single_cipher_step :
    cmd_process expProcessParamTypes TEE_SUCCESS (OpSlot.live readyOp) =
      ProcOutcome.ret TEE_SUCCESS 1 ∧
    cmd_process hostProcessParamTypes TEE_SUCCESS (OpSlot.live readyOp) =
      ProcOutcome.ret TEE_ERROR_BAD_PARAMETERS 0 := by
  constructor <;> rfl

/-- Claim C3: every successful PrepareKey allocates the operation for the
fixed tuple (TEE_ALG_AES_ECB_NOPAD, direction, 128) — only the direction
comes from the parameters; the accepted one-value shape carries no mode
and no key size, and the host's shape that does carry them is rejected. -/
theorem claim_C3_fixed_tuple :
    (∀ (f : Bool) (slot : OpSlot),
      cmd_prepare_key expPrepareKeyParamTypes f successEnv slot =
        ⟨TEE_SUCCESS, OpSlot.live ⟨TEE_ALG_AES_ECB_NOPAD,
          if f then TEE_MODE_DECRYPT else TEE_MODE_ENCRYPT, 128, true⟩,
          false⟩) ∧
    cmd_prepare_key hostPrepareKeyParamTypes true successEnv OpSlot.null =
      ⟨TEE_ERROR_BAD_PARAMETERS, OpSlot.null, false⟩ := by
  refine ⟨fun f slot => ?_, rfl⟩
  cases f <;> rfl

/-- Claim C4 counterexample: a Process command with the accepted parameter
shape on a session whose `crypto_op` is still NULL does not produce a
structured error return — it panics (the NULL handle goes straight into
`TEE_CipherInit`), refuting the claim that the command fails with a
structured "no key configured" error rather than crashing. -/
theorem claim_C4_counterexample :
    cmd_process expProcessParamTypes TEE_SUCCESS OpSlot.null =
      ProcOutcome.panic := by
  rfl

/-- Claim C4 (amended): a Process command with the accepted parameter
shape on a session with no key configuration panics — the service
crashes via the GP panic on the NULL operation handle instead of
returning a structured error, whatever the cipher primitive would have
reported. -/
theorem claim_C4_no_key_panics :
    ∀ doFinalRes : Nat,
      cmd_process expProcessParamTypes doFinalRes OpSlot.null =
        ProcOutcome.panic := by
  intro doFinalRes
  rfl

/-- Claim C5 counterexample: with `TEE_AllocateOperation` succeeding and
`TEE_AllocateTransientObject` failing with out-of-memory, `cmd_prepare_key`
returns the error but leaves the freshly allocated keyless operation
bound to the session — a half-constructed operation, refuting the claimed
rollback to "no context". -/
theorem claim_C5_counterexample :
    (cmd_prepare_key expPrepareKeyParamTypes false
        ⟨TEE_SUCCESS, TEE_ERROR_OUT_OF_MEMORY, TEE_SUCCESS, TEE_SUCCESS⟩
        OpSlot.null).res = TEE_ERROR_OUT_OF_MEMORY ∧
    (cmd_prepare_key expPrepareKeyParamTypes false
        ⟨TEE_SUCCESS, TEE_ERROR_OUT_OF_MEMORY, TEE_SUCCESS, TEE_SUCCESS⟩
        OpSlot.null).slot =
      OpSlot.live ⟨TEE_ALG_AES_ECB_NOPAD, TEE_MODE_ENCRYPT, 128, false⟩ := by
  constructor <;> rfl

/-- Claim C5 (amended): whenever a step after the operation allocation
fails (transient-key allocation, key population, or key binding),
`cmd_prepare_key` returns a non-success structured error but the session
is left with the newly allocated keyless operation bound — there is no
rollback to "no context". -/
theorem claim_C5_failure_leaves_keyless_op (f : Bool) (env : PrepEnv)
    (slot : OpSlot) (hop : env.allocOpRes = TEE_SUCCESS)
    (hfail : env.allocKeyRes ≠ TEE_SUCCESS ∨ env.populateRes ≠ TEE_SUCCESS ∨
      env.setKeyRes ≠ TEE_SUCCESS) :
    (cmd_prepare_key expPrepareKeyParamTypes f env slot).res ≠ TEE_SUCCESS ∧
    (cmd_prepare_key expPrepareKeyParamTypes f env slot).slot =
      OpSlot.live ⟨TEE_ALG_AES_ECB_NOPAD,
        if f then TEE_MODE_DECRYPT else TEE_MODE_ENCRYPT, 128, false⟩ := by
  by_cases h1 : env.allocKeyRes = TEE_SUCCESS
  · by_cases h2 : env.populateRes = TEE_SUCCESS
    · have h3 : env.setKeyRes ≠ TEE_SUCCESS := by tauto
      simp [cmd_prepare_key, hop, h1, h2, h3]
    · simp [cmd_prepare_key, hop, h1, h2]
  · simp [cmd_prepare_key, hop, h1]

/-- Claim C5 witness: the amended statement instantiated at the
out-of-memory transient-key allocation failure. -/
theorem claim_C5_witness :
    (cmd_prepare_key expPrepareKeyParamTypes false
        ⟨TEE_SUCCESS, TEE_ERROR_OUT_OF_MEMORY, TEE_SUCCESS, TEE_SUCCESS⟩
        OpSlot.null).res ≠ TEE_SUCCESS ∧
    (cmd_prepare_key expPrepareKeyParamTypes false
        ⟨TEE_SUCCESS, TEE_ERROR_OUT_OF_MEMORY, TEE_SUCCESS, TEE_SUCCESS⟩
        OpSlot.null).slot =
      OpSlot.live ⟨TEE_ALG_AES_ECB_NOPAD,
        if false then TEE_MODE_DECRYPT else TEE_MODE_ENCRYPT, 128, false⟩ :=
  claim_C5_failure_leaves_keyless_op false
    ⟨TEE_SUCCESS, TEE_ERROR_OUT_OF_MEMORY, TEE_SUCCESS, TEE_SUCCESS⟩
    OpSlot.null rfl (Or.inl (by decide))

/-- Claim C6: a PrepareKey whose parameter shape mismatches the expected
signature fails with TEE_ERROR_BAD_PARAMETERS and leaves the previously
committed operation context exactly as it was (in particular nothing is
freed: the slot is returned unchanged, not dangling). -/
theorem claim_C6_bad_shape_preserves_context (pt : Nat) (f : Bool)
    (env : PrepEnv) (slot : OpSlot) (h : pt ≠ expPrepareKeyParamTypes) :
    cmd_prepare_key pt f env slot = ⟨TEE_ERROR_BAD_PARAMETERS, slot, false⟩ := by
  unfold cmd_prepare_key
  rw [if_pos h]

/-- Claim C6 witness: the host's mismatched two-value shape on a session
holding a fully prepared operation: the error is returned and the old
operation stays bound untouched. -/
theorem claim_C6_witness :
    cmd_prepare_key hostPrepareKeyParamTypes true successEnv
      (OpSlot.live readyOp) =
      ⟨TEE_ERROR_BAD_PARAMETERS, OpSlot.live readyOp, false⟩ :=
  claim_C6_bad_shape_preserves_context hostPrepareKeyParamTypes true successEnv
    (OpSlot.live readyOp) (by decide)

/-! ### Claims about the statistics engine -/

/-- One `update_stats` call increments the sample count by one. -/
lemma update_stats_n (s : Statistics) (x : ℚ) : (update_stats s x).n = s.n + 1 := by
  unfold update_stats
  split <;> rfl

/-- Folding samples into the accumulator adds their number to the count. -/
lemma foldl_update_stats_n (xs : List ℚ) :
    ∀ s : Statistics, (List.foldl update_stats s xs).n = s.n + xs.length := by
  induction xs with
  | nil => intro s; simp
  | cons x t ih =>
    intro s
    have h := ih (update_stats s x)
    simp only [List.foldl_cons, List.length_cons, h, update_stats_n]
    omega

/-- Claim C7: after feeding any sequence of duration samples, `stddev` is
not-a-number (modelled `none`) exactly when fewer than two samples were
fed, and otherwise equals sqrt(M2 / n) with divisor n = the number of
samples (population standard deviation, not Bessel-corrected). -/
theorem claim_C7_stddev_population (xs : List ℚ) :
    stddev (feedStats xs) =
      if xs.length < 2 then none
      else some (Real.sqrt (((feedStats xs).M2 : ℝ) / (xs.length : ℝ))) := by
  have hn : (feedStats xs).n = xs.length := by
    have h := foldl_update_stats_n xs initStats
    simpa [feedStats, initStats] using h
  unfold stddev
  rw [hn]

/-- The updated Welford mean m + (x - m)/c is a convex combination of the
old mean and the new sample, hence stays between min(mn, x) and
max(mx, x) whenever mn ≤ m ≤ mx and c ≥ 1. -/
lemma welford_mean_bounds (mn mx m x c : ℚ) (hc : 1 ≤ c) (h1 : mn ≤ m)
    (h2 : m ≤ mx) :
    Min.min mn x ≤ m + (x - m) / c ∧ m + (x - m) / c ≤ Max.max mx x := by
  have hc0 : (0 : ℚ) < c := lt_of_lt_of_le one_pos hc
  constructor
  · rcases le_total x m with hxm | hxm
    · have hds : (m - x) / c ≤ m - x := div_le_self (by linarith) hc
      have hneg : (x - m) / c = -((m - x) / c) := by ring
      calc Min.min mn x ≤ x := min_le_right _ _
        _ ≤ m + (x - m) / c := by rw [hneg]; linarith
    · have hdn : 0 ≤ (x - m) / c := div_nonneg (by linarith) hc0.le
      calc Min.min mn x ≤ mn := min_le_left _ _
        _ ≤ m := h1
        _ ≤ m + (x - m) / c := by linarith
  · rcases le_total x m with hxm | hxm
    · have hdn : 0 ≤ (m - x) / c := div_nonneg (by linarith) hc0.le
      have hneg : (x - m) / c = -((m - x) / c) := by ring
      calc m + (x - m) / c ≤ m := by rw [hneg]; linarith
        _ ≤ mx := h2
        _ ≤ Max.max mx x := le_max_left _ _
    · have hds : (x - m) / c ≤ x - m := div_le_self (by linarith) hc
      calc m + (x - m) / c ≤ x := by linarith
        _ ≤ Max.max mx x := le_max_right _ _

/-- `update_stats` on an already-initialized accumulator, written out. -/
lemma update_stats_of_initialized (s : Statistics) (x : ℚ)
    (hi : s.initialized = true) :
    update_stats s x =
      ⟨s.n + 1, s.m + (x - s.m) / ((s.n + 1 : ℕ) : ℚ),
        s.M2 + (x - s.m) * (x - (s.m + (x - s.m) / ((s.n + 1 : ℕ) : ℚ))),
        Min.min s.min x, Max.max s.max x, true⟩ := by
  unfold update_stats
  rw [hi]
  rfl

/-- The invariant survives one `update_stats` call. -/
lemma statsInv_update (s : Statistics) (x : ℚ) (h : StatsInv s) :
    StatsInv (update_stats s x) := by
  obtain ⟨hi, hn, hmin, hmax⟩ := h
  have hc : (1 : ℚ) ≤ ((s.n + 1 : ℕ) : ℚ) := by
    exact_mod_cast Nat.succ_le_succ (Nat.zero_le s.n)
  have hb := welford_mean_bounds s.min s.max s.m x ((s.n + 1 : ℕ) : ℚ) hc hmin hmax
  rw [update_stats_of_initialized s x hi]
  exact ⟨rfl, Nat.succ_le_succ (Nat.zero_le s.n), hb.1, hb.2⟩

/-- The very first sample establishes the invariant. -/
lemma statsInv_first (x : ℚ) : StatsInv (update_stats initStats x) := by
  simp [update_stats, initStats, StatsInv]

/-- The invariant survives folding any further samples. -/
lemma statsInv_foldl (xs : List ℚ) :
    ∀ s : Statistics, StatsInv s → StatsInv (List.foldl update_stats s xs) := by
  induction xs with
  | nil => intro s h; exact h
  | cons x t ih => intro s h; exact ih (update_stats s x) (statsInv_update s x h)

/-- Claim C8: after feeding any non-empty sequence of duration samples,
the accumulator counts at least one sample and its running mean lies
between its running minimum and maximum. -/
theorem claim_C8_min_le_mean_le_max (xs : List ℚ) (h : xs ≠ []) :
    1 ≤ (feedStats xs).n ∧ (feedStats xs).min ≤ (feedStats xs).m ∧
      (feedStats xs).m ≤ (feedStats xs).max := by
  match xs, h with
  | x :: t, _ =>
    have h1 : StatsInv (List.foldl update_stats (update_stats initStats x) t) :=
      statsInv_foldl t (update_stats initStats x) (statsInv_first x)
    have hfeed : feedStats (x :: t) =
        List.foldl update_stats (update_stats initStats x) t := rfl
    rw [hfeed]
    exact ⟨h1.2.1, h1.2.2.1, h1.2.2.2⟩

/-- Claim C8 witness: the singleton sample sequence {100}. -/
theorem claim_C8_witness :
    1 ≤ (feedStats [100]).n ∧ (feedStats [100]).min ≤ (feedStats [100]).m ∧
      (feedStats [100]).m ≤ (feedStats [100]).max :=
  claim_C8_min_le_mean_le_max [100] (by simp)

/-! ### Claims about the buffer lifecycle and timestamp arithmetic -/

/-- Claim C9 counterexample: (a) in an in-place run that completes
normally, `free_shm` calls release on the output buffer even though it
was never allocated; (b) when an invocation fails mid-run, the process
exits through `errx` and the successfully allocated input buffer is
never released. -/
theorem claim_C9_counterexample :
    (run_test_shm true 1 RunFailure.ok).allocatedOut = false ∧
    (run_test_shm true 1 RunFailure.ok).releasedOut = 1 ∧
    (run_test_shm false 1 RunFailure.invokeFails).allocatedIn = true ∧
    (run_test_shm false 1 RunFailure.invokeFails).releasedIn = 0 := by
  exact ⟨rfl, rfl, rfl, rfl⟩

/-- Claim C9 (amended): on a normally completing run, `free_shm` releases
both shared-memory structures exactly once each — regardless of whether
the output buffer was ever allocated — and on every early-failure exit
path the process exits without releasing anything at all. -/
theorem claim_C9_release_pattern (inPlace : Bool) (nIter : Nat)
    (fail : RunFailure) :
    (run_test_shm inPlace nIter fail).releasedIn =
      (if (run_test_shm inPlace nIter fail).exited then 0 else 1) ∧
    (run_test_shm inPlace nIter fail).releasedOut =
      (if (run_test_shm inPlace nIter fail).exited then 0 else 1) := by
  by_cases h : nIter = 0
  · subst h
    cases fail <;> cases inPlace <;> exact ⟨rfl, rfl⟩
  · cases fail <;> cases inPlace <;> simp [run_test_shm, h]

/-- Claim C10 counterexample: at start = (0 s, 0 ns) and
finish = (2^62 s, 0 ns) — valid timestamps under the claim's
preconditions — the true difference 2^62 * 10^9 ns exceeds 2^64, the
uint64 accumulator wraps, and `timespec_diff_ns` returns 0 instead of
the claimed exact value. -/
theorem claim_C10_counterexample :
    timespec_diff_ns ⟨0, 0⟩ ⟨4611686018427387904, 0⟩ = 0 ∧
    ((4611686018427387904 : Int) - 0) * 1000000000 + ((0 : Int) - 0) ≠ 0 := by
  constructor
  · decide
  · norm_num

/-- Claim C10 (amended): for timestamps with normalized nanosecond fields,
finish not earlier than start, and an elapsed time below 2^64
nanoseconds, `timespec_diff_ns` returns exactly
(finish.tv_sec - start.tv_sec) * 10^9 + (finish.tv_nsec - start.tv_nsec),
in both the borrow and the non-borrow case. -/
theorem claim_C10_exact_diff (start finish : Timespec)
    (h1 : 0 ≤ start.tv_nsec) (h2 : start.tv_nsec < 1000000000)
    (h3 : 0 ≤ finish.tv_nsec) (h4 : finish.tv_nsec < 1000000000)
    (h5 : start.tv_sec * 1000000000 + start.tv_nsec ≤
      finish.tv_sec * 1000000000 + finish.tv_nsec)
    (h6 : (finish.tv_sec - start.tv_sec) * 1000000000 +
      (finish.tv_nsec - start.tv_nsec) < 18446744073709551616) :
    (timespec_diff_ns start finish : Int) =
      (finish.tv_sec - start.tv_sec) * 1000000000 +
        (finish.tv_nsec - start.tv_nsec) := by
  unfold timespec_diff_ns wrap64
  split
  case isTrue hlt =>
    have hds : 1 ≤ finish.tv_sec - start.tv_sec := by nlinarith
    have hA0 : 0 ≤ 1000000000 * (finish.tv_sec - start.tv_sec - 1) := by nlinarith
    have hB0 : 0 ≤ 1000000000 - start.tv_nsec + finish.tv_nsec := by linarith
    have hBM : 1000000000 - start.tv_nsec + finish.tv_nsec <
        18446744073709551616 := by linarith
    have hAM : 1000000000 * (finish.tv_sec - start.tv_sec - 1) <
        18446744073709551616 := by nlinarith
    rw [Int.emod_eq_of_lt hA0 hAM, Int.emod_eq_of_lt hB0 hBM]
    omega
  case isFalse hge =>
    have hB0 : 0 ≤ finish.tv_nsec - start.tv_nsec := by omega
    have hds : 0 ≤ finish.tv_sec - start.tv_sec := by nlinarith
    have hA0 : 0 ≤ 1000000000 * (finish.tv_sec - start.tv_sec) := by nlinarith
    have hAM : 1000000000 * (finish.tv_sec - start.tv_sec) <
        18446744073709551616 := by nlinarith
    have hBM : finish.tv_nsec - start.tv_nsec < 18446744073709551616 := by
      linarith
    rw [Int.emod_eq_of_lt hA0 hAM, Int.emod_eq_of_lt hB0 hBM]
    omega

/-- Claim C10 witness: a concrete borrow-case pair, 5.9 s to 7.1 s. -/
theorem claim_C10_witness :
    (timespec_diff_ns ⟨5, 900000000⟩ ⟨7, 100000000⟩ : Int) =
      ((7 : Int) - 5) * 1000000000 + ((100000000 : Int) - 900000000) :=
  claim_C10_exact_diff ⟨5, 900000000⟩ ⟨7, 100000000⟩ (by norm_num) (by norm_num)
    (by norm_num) (by norm_num) (by norm_num) (by norm_num)
